import Mathlib

/-!
Verification of the node-multispinner core (src/index.js): a registry of
named spinner entries, a periodic render loop driven by a single interval
timer, and completion operations that stop the loop, mutate one entry and
restart the loop.  The JavaScript code is shallowly embedded: the instance
fields of the Multispinner class become a structure, the interval-timer
machinery of the runtime becomes an explicit table of active timer ids,
and the body of the setInterval callback becomes a pure tick function that
returns the successor state together with the list of output-collaborator
calls it performs.  Code that lives in the repository outside src/
(lib/states, lib/defaultProps, lib/createSpinner, the chalk and log-update
collaborators) is modelled from the spec, as marked on each definition.
-/

set_option maxRecDepth 4000

--------------------------------------------------------------------------
-- JavaScript value shapes: kind-of classification and truthiness
--------------------------------------------------------------------------

/-- Shapes of JavaScript values as far as the constructor validation in
src/index.js distinguishes them (via the kind-of package). -/
inductive JSValue where
  | null
  | undefined
  | boolean (b : Bool)
  | number (n : Int)
  | string (s : String)
  | array (elems : List JSValue)
  | object (fields : List (String × JSValue))
  | function

/-- Modelled from the spec: the kind-of classifier used by the constructor
to decide whether the spinners and options arguments are an
ordered-sequence type, a key-value-mapping type, or something else. -/
def kindOf : JSValue → String
  | .null => "null"
  | .undefined => "undefined"
  | .boolean _ => "boolean"
  | .number _ => "number"
  | .string _ => "string"
  | .array _ => "array"
  | .object _ => "object"
  | .function => "function"

/-- JavaScript truthiness, used by the source line
if (opts and optsType not object) in the constructor. -/
def truthy : JSValue → Bool
  | .null => false
  | .undefined => false
  | .boolean b => b
  | .number n => n != 0
  | .string s => s != ""
  | .array _ => true
  | .object _ => true
  | .function => true

/-- String a JavaScript value is displayed as inside a template literal;
only string labels are exercised by the claims. -/
def jsLabel : JSValue → String
  | .null => "null"
  | .undefined => "undefined"
  | .boolean b => cond b "true" "false"
  | .number n => toString n
  | .string s => s
  | .array _ => ""
  | .object _ => "[object Object]"
  | .function => "function"

--------------------------------------------------------------------------
-- The state enum (lib/states) and the output collaborators
--------------------------------------------------------------------------

/-- Modelled from the spec: lib/states, the internal state enum with the
three members Incomplete, Success and Error; its keys and values are the
same strings, so that the hasOwnProperty guard in complete accepts
exactly the enum values. -/
def states.incomplete : String := "incomplete"

/-- Modelled from the spec: the Success member of the state enum. -/
def states.success : String := "success"

/-- Modelled from the spec: the Error member of the state enum. -/
def states.error : String := "error"

/-- The key set of the lib/states enum object, as tested by
states.hasOwnProperty(state) in the complete method. -/
def statesKeys : List String := [states.incomplete, states.success, states.error]

/-- states.hasOwnProperty(state) from src/index.js line 136. -/
def statesHasOwnProperty (s : String) : Bool := statesKeys.contains s

/-- Output streams an output-collaborator call can be bound to: the real
terminal stream of the global log-update instance, or the discarded
writable sink created for debug mode in the constructor. -/
inductive Sink where
  | real
  | debugNoop
deriving DecidableEq

/-- One call made to an output collaborator during a tick: a block write
through this.update, or a clear of the last block through
logUpdate.clear(). -/
inductive OutEvent where
  | write (target : Sink) (text : String)
  | clearBlock (target : Sink)
deriving DecidableEq

/-- Modelled from the spec: the color collaborator (chalk) maps a color
identifier to a formatter that wraps a string with that color's terminal
escape sequences. -/
def chalk (color s : String) : String :=
  "\x1b[" ++ color ++ "m" ++ s ++ "\x1b[0m"

/-- Modelled from the spec: the platform line separator (os.EOL). -/
def osEOL : String := "\n"

--------------------------------------------------------------------------
-- Registry entries and the Multispinner instance state
--------------------------------------------------------------------------

/-- Modelled from the spec (lib/createSpinner): one registry entry, with
its display text, its state-enum value, and the last computed display
string (this.spinners[name].current, not meaningful before the first
tick). -/
structure SpinnerEntry where
  text : String
  state : String
  current : String
deriving DecidableEq

/-- Modelled from the spec (lib/defaultProps plus the option merge of
lib/validOpts): the resolved configuration an instance starts from.  The
constructor deep-copies defaults and overwrites recognized options; the
claims are settled against the already-merged result. -/
structure Config where
  frames : List String := ["-", "\\", "|", "/"]
  frameCount : Nat := 4
  i : Nat := 0
  interval : Nat := 80
  indentStr : String := "  "
  incompleteColor : String := "blue"
  successColor : String := "green"
  errorColor : String := "red"
  successSymbol : String := "✓"
  errorSymbol : String := "✖"
  clear : Bool := false
  debug : Bool := false

/-- The default configuration table (lib/defaultProps). -/
def defaultConfig : Config := {}

/-- The instance state of the Multispinner class, together with the piece
of runtime state the class leans on: the table of armed interval timers
(activeTimers, with nextTimerId the next fresh id the runtime hands out).
The field named state is the instance field this.state, which stores the
handle returned by the most recent setInterval call. -/
structure Multispinner where
  spinners : List (String × SpinnerEntry)
  i : Nat
  frames : List String
  frameCount : Nat
  currentFrame : String
  interval : Nat
  indentStr : String
  incompleteColor : String
  successColor : String
  errorColor : String
  successSymbol : String
  errorSymbol : String
  clear : Bool
  debug : Bool
  updateSink : Sink
  state : Option Nat
  activeTimers : List Nat
  nextTimerId : Nat
deriving DecidableEq

--------------------------------------------------------------------------
-- Construction (constructor of src/index.js)
--------------------------------------------------------------------------

/-- Constructor failures: errs.spinnersType() and errs.optsType(). -/
inductive ConfigError where
  | spinnersType
  | optsType
deriving DecidableEq

/-- The fresh instance before any spinners are parsed: configuration
fields copied from the (merged) defaults, this.update bound to the debug
no-op sink or to the real log-update instance, no timer armed. -/
def initFromConfig (cfg : Config) : Multispinner :=
  { spinners := []
    i := cfg.i
    frames := cfg.frames
    frameCount := cfg.frameCount
    currentFrame := "undefined"
    interval := cfg.interval
    indentStr := cfg.indentStr
    incompleteColor := cfg.incompleteColor
    successColor := cfg.successColor
    errorColor := cfg.errorColor
    successSymbol := cfg.successSymbol
    errorSymbol := cfg.errorSymbol
    clear := cfg.clear
    debug := cfg.debug
    updateSink := if cfg.debug then Sink.debugNoop else Sink.real
    state := none
    activeTimers := []
    nextTimerId := 0 }

/-- Assignment this.spinners[name] = entry: a later entry with an existing
name overwrites in place (keeping the first insertion position, as
JavaScript object keys do); a new name is appended. -/
def insertEntry (l : List (String × SpinnerEntry)) (name : String)
    (e : SpinnerEntry) : List (String × SpinnerEntry) :=
  if l.any (fun p => p.1 == name) then
    l.map (fun p => if p.1 == name then (name, e) else p)
  else
    l ++ [(name, e)]

/-- Modelled from the spec (lib/createSpinner): record one entry with
state Incomplete and text the given label, defaulting to the name. -/
def createSpinner (m : Multispinner) (name : String) (text : Option String) :
    Multispinner :=
  let e : SpinnerEntry :=
    { text := text.getD name, state := states.incomplete, current := "" }
  { m with spinners := insertEntry m.spinners name e }

/-- The spinners-parsing step of the constructor: array elements become
their own labels, object fields map name to label. -/
def parseSpinners (m : Multispinner) : JSValue → Multispinner
  | .array xs =>
      xs.foldl (fun acc v => createSpinner acc (jsLabel v) none) m
  | .object fs =>
      fs.foldl (fun acc p => createSpinner acc p.1 (some (jsLabel p.2))) m
  | _ => m

/-- The constructor of src/index.js: throw if the spinners argument is
neither object nor array; throw if the opts argument is truthy and not an
object; otherwise copy defaults, merge options (received here as the
already-resolved cfg), parse the spinners and bind this.update. -/
def construct (spinners opts : JSValue) (cfg : Config) :
    Except ConfigError Multispinner :=
  if kindOf spinners != "object" && kindOf spinners != "array" then
    Except.error ConfigError.spinnersType
  else if truthy opts && kindOf opts != "object" then
    Except.error ConfigError.optsType
  else
    Except.ok (parseSpinners (initFromConfig cfg) spinners)

--------------------------------------------------------------------------
-- Timer machinery: loop / stop / start
--------------------------------------------------------------------------

/-- loop() of src/index.js: this.state = setInterval(...).  The runtime
arms a fresh interval timer and returns its handle; the previous handle
stored in this.state is overwritten without being cleared. -/
def Multispinner.loop (m : Multispinner) : Multispinner :=
  { m with
    activeTimers := m.activeTimers ++ [m.nextTimerId]
    state := some m.nextTimerId
    nextTimerId := m.nextTimerId + 1 }

/-- stop() of src/index.js: clearInterval(this.state).  Clears the timer
whose handle is stored in this.state, if any; other armed timers are
untouched and this.state keeps its (now dead) handle. -/
def Multispinner.stop (m : Multispinner) : Multispinner :=
  match m.state with
  | none => m
  | some h => { m with activeTimers := m.activeTimers.filter (fun x => x != h) }

/-- start() of src/index.js: just this.loop(). -/
def Multispinner.start (m : Multispinner) : Multispinner := m.loop

/-- Whether the timer recorded in this.state is still armed, i.e. whether
the instance's own render loop is running. -/
def timerActive (m : Multispinner) : Bool :=
  match m.state with
  | some h => m.activeTimers.contains h
  | none => false

--------------------------------------------------------------------------
-- The tick body (the setInterval callback inside loop())
--------------------------------------------------------------------------

/-- The switch statement of the tick: pick color and symbol for a state.
The switch has no default case, so a state value outside the enum leaves
color and symbol undefined and the chalk call fails - modelled by none. -/
def stateStyle (m : Multispinner) (st : String) : Option (String × String) :=
  if st == states.incomplete then some (m.incompleteColor, m.currentFrame)
  else if st == states.success then some (m.successColor, m.successSymbol)
  else if st == states.error then some (m.errorColor, m.errorSymbol)
  else none

/-- One entry's render step: current = chalk[color](indentStr + symbol +
" " + text).  Note the indent string sits inside the colored segment. -/
def renderEntry (m : Multispinner) (e : SpinnerEntry) : Option SpinnerEntry :=
  match stateStyle m e.state with
  | none => none
  | some p =>
      some { e with current := chalk p.1 (m.indentStr ++ p.2 ++ " " ++ e.text) }

/-- The Object.keys(this.spinners).map(...) pass that recomputes every
entry's current string, in registry order. -/
def renderList (m : Multispinner) :
    List (String × SpinnerEntry) → Option (List (String × SpinnerEntry))
  | [] => some []
  | p :: rest =>
      match renderEntry m p.2, renderList m rest with
      | some e, some rest2 => some ((p.1, e) :: rest2)
      | _, _ => none

/-- The frame advance at the top of the tick:
this.currentFrame = this.frames[this.i = ++this.i % this.frameCount].
An out-of-range index reads as undefined, which a template literal shows
as the string undefined. -/
def tickFrame (m : Multispinner) : Multispinner :=
  let i2 := (m.i + 1) % m.frameCount
  { m with i := i2, currentFrame := m.frames.getD i2 "undefined" }

/-- The argument of this.update: the current strings joined with os.EOL,
in registry order. -/
def blockOf (m : Multispinner) : String :=
  String.intercalate osEOL (m.spinners.map (fun p => p.2.current))

/-- allCompleted() of src/index.js: every entry's state differs from
states.incomplete. -/
def Multispinner.allCompleted (m : Multispinner) : Bool :=
  m.spinners.all (fun p => p.2.state != states.incomplete)

/-- The body of the setInterval callback in loop(): advance the frame,
recompute every current string, push the joined block through this.update,
and if all spinners are finished, stop and (if this.clear) call the global
logUpdate.clear() - on the real stream, not through this.update.  Returns
the successor state and the output-collaborator calls, or none if a
render step fails (state outside the enum). -/
def Multispinner.tick (m : Multispinner) : Option (Multispinner × List OutEvent) :=
  let m1 := tickFrame m
  match renderList m1 m1.spinners with
  | none => none
  | some sps =>
      let m2 := { m1 with spinners := sps }
      let ev := OutEvent.write m2.updateSink (blockOf m2)
      if m2.allCompleted then
        let m3 := m2.stop
        some (m3, if m2.clear then [ev, OutEvent.clearBlock Sink.real] else [ev])
      else
        some (m2, [ev])

/-- Run the instance's interval timers for a number of callback
executions.  In the runtime every armed setInterval keeps firing the
same tick callback, including stray intervals whose handle is no longer
recorded in this.state (reachable by calling start() twice); so each
step here executes the callback once as long as at least one interval is
armed, and only a state with no armed interval at all is quiescent. -/
def runTicks : Nat → Multispinner → Option (Multispinner × List OutEvent)
  | 0, m => some (m, [])
  | k + 1, m =>
      if m.activeTimers.isEmpty then some (m, [])
      else
        match m.tick with
        | none => none
        | some (m1, evs1) =>
            match runTicks k m1 with
            | none => none
            | some (m2, evs2) => some (m2, evs1 ++ evs2)

--------------------------------------------------------------------------
-- Completion operations: complete / success / error
--------------------------------------------------------------------------

/-- Failures of the complete method: the explicit throw on a state value
the enum does not own, and the TypeError a lookup of an absent name
produces at this.spinners[spinner].state = state. -/
inductive CompleteError where
  | invalidState
  | lookupFailure
deriving DecidableEq

/-- this.spinners[spinner].state = state: overwrite the state field of
the named entry in place; none if the name is absent. -/
def setSpinnerState :
    List (String × SpinnerEntry) → String → String →
      Option (List (String × SpinnerEntry))
  | [], _, _ => none
  | p :: rest, name, st =>
      if p.1 == name then
        some ((p.1, { p.2 with state := st }) :: rest)
      else
        match setSpinnerState rest name st with
        | none => none
        | some rest2 => some (p :: rest2)

/-- Property lookup this.spinners[name]. -/
def lookupSpinner (l : List (String × SpinnerEntry)) (name : String) :
    Option SpinnerEntry :=
  match l with
  | [] => none
  | p :: rest => if p.1 == name then some p.2 else lookupSpinner rest name

/-- complete(spinner, state) of src/index.js: throw unless the state enum
owns the given value; then stop, mutate the entry, and start again. -/
def Multispinner.complete (m : Multispinner) (spinner st : String) :
    Except CompleteError Multispinner :=
  if !(statesHasOwnProperty st) then
    Except.error CompleteError.invalidState
  else
    let m1 := m.stop
    match setSpinnerState m1.spinners spinner st with
    | none => Except.error CompleteError.lookupFailure
    | some sps => Except.ok (Multispinner.start { m1 with spinners := sps })

/-- success(spinner) of src/index.js. -/
def Multispinner.success (m : Multispinner) (spinner : String) :
    Except CompleteError Multispinner :=
  m.complete spinner states.success

/-- error(spinner) of src/index.js. -/
def Multispinner.error (m : Multispinner) (spinner : String) :
    Except CompleteError Multispinner :=
  m.complete spinner states.error

--------------------------------------------------------------------------
-- Derived notions used by the theorems
--------------------------------------------------------------------------

/-- Every entry's state is a member of the state enum (always true of
reachable instances: entries are created Incomplete and complete only
writes enum members). -/
def validStates (l : List (String × SpinnerEntry)) : Bool :=
  l.all (fun p => statesKeys.contains p.2.state)

/-- validStates of an instance's registry. -/
def entriesValid (m : Multispinner) : Bool := validStates m.spinners

/-- Some entry is still Incomplete. -/
def hasIncomplete (m : Multispinner) : Bool :=
  m.spinners.any (fun p => p.2.state == states.incomplete)

/-- Total form of one entry's render under a valid state: what
renderEntry computes when the switch matches. -/
def renderedEntry (m : Multispinner) (e : SpinnerEntry) : SpinnerEntry :=
  let p :=
    if e.state == states.incomplete then (m.incompleteColor, m.currentFrame)
    else if e.state == states.success then (m.successColor, m.successSymbol)
    else (m.errorColor, m.errorSymbol)
  { e with current := chalk p.1 (m.indentStr ++ p.2 ++ " " ++ e.text) }

/-- Total form of the whole tick on a registry of valid states: advance
the frame and recompute every current string. -/
def tickPure (m : Multispinner) : Multispinner :=
  let m1 := tickFrame m
  { m1 with spinners := m1.spinners.map (fun p => (p.1, renderedEntry m1 p.2)) }

/-- Number of block writes in a list of output events. -/
def countWrites (evs : List OutEvent) : Nat :=
  (evs.filter (fun e => match e with | .write _ _ => true | _ => false)).length

/-- Number of clear calls in a list of output events. -/
def countClears (evs : List OutEvent) : Nat :=
  (evs.filter (fun e => match e with | .clearBlock _ => true | _ => false)).length

/-- Does some clear call in the list target the real stream? -/
def clearsToReal (evs : List OutEvent) : Bool :=
  evs.any (fun e => match e with | .clearBlock Sink.real => true | _ => false)

/-- Do all block writes in the list target the given sink? -/
def writesOnlyTo (evs : List OutEvent) (snk : Sink) : Bool :=
  evs.all (fun e => match e with | .write t _ => t == snk | _ => true)

/-- All clear calls in a list of output events target the real stream. -/
def clearsAllReal (evs : List OutEvent) : Bool :=
  evs.all (fun e => match e with | .clearBlock t => t == Sink.real | _ => true)

/-- Boolean success test for Except results. -/
def exceptOk {ε α : Type} : Except ε α → Bool
  | .ok _ => true
  | .error _ => false

--------------------------------------------------------------------------
-- Concrete instances used by witnesses and counterexamples
--------------------------------------------------------------------------

/-- A one-spinner registry input, the mapping with key a and label A. -/
def spObjA : JSValue := JSValue.object [("a", JSValue.string "A")]

/-- The instance constructed from spObjA with the default configuration. -/
def exM : Multispinner :=
  parseSpinners (initFromConfig defaultConfig) spObjA

/-- The debug-and-clear configuration. -/
def cfgDebugClear : Config := { defaultConfig with debug := true, clear := true }

/-- The instance constructed from spObjA with debug and clear set. -/
def exMDebug : Multispinner :=
  parseSpinners (initFromConfig cfgDebugClear) spObjA

/-- The clear-on-completion configuration. -/
def cfgClear : Config := { defaultConfig with clear := true }

/-- The instance constructed from spObjA with clearOnComplete set. -/
def exMClear : Multispinner :=
  parseSpinners (initFromConfig cfgClear) spObjA

/-- exM with its single entry already completed and its timer armed. -/
def exMDone : Multispinner :=
  { exM with
    spinners := [("a", { text := "A", state := states.success, current := "" })]
    activeTimers := [0]
    state := some 0
    nextTimerId := 1 }

/-- exMDebug with its single entry already completed and its timer armed. -/
def exMDebugDone : Multispinner :=
  { exMDebug with
    spinners := [("a", { text := "A", state := states.success, current := "" })]
    activeTimers := [5]
    state := some 5
    nextTimerId := 6 }

--------------------------------------------------------------------------
-- Helper lemmas: rendering
--------------------------------------------------------------------------

lemma renderedEntry_state (m : Multispinner) (e : SpinnerEntry) :
    (renderedEntry m e).state = e.state := rfl

lemma renderedEntry_text (m : Multispinner) (e : SpinnerEntry) :
    (renderedEntry m e).text = e.text := rfl

lemma renderEntry_of_valid (m : Multispinner) (e : SpinnerEntry)
    (h : e.state ∈ statesKeys) :
    renderEntry m e = some (renderedEntry m e) := by
  have h3 : e.state = states.incomplete ∨ e.state = states.success ∨
      e.state = states.error := by simpa [statesKeys] using h
  rcases h3 with h3 | h3 | h3 <;>
    simp [renderEntry, stateStyle, renderedEntry, h3, states.incomplete,
      states.success, states.error]

lemma renderList_eq_of_valid (m : Multispinner)
    (l : List (String × SpinnerEntry)) (h : validStates l = true) :
    renderList m l = some (l.map (fun p => (p.1, renderedEntry m p.2))) := by
  induction l with
  | nil => rfl
  | cons p rest ih =>
      simp only [validStates, List.all_cons, Bool.and_eq_true] at h
      have hp : p.2.state ∈ statesKeys := by
        simpa using h.1
      have hrest : validStates rest = true := h.2
      simp [renderList, renderEntry_of_valid m p.2 hp, ih hrest]

lemma stop_spinners (m : Multispinner) : m.stop.spinners = m.spinners := by
  unfold Multispinner.stop
  cases m.state <;> rfl

lemma tick_of_valid (m : Multispinner) (hv : entriesValid m = true) :
    m.tick = some (
      if (tickPure m).allCompleted then
        ((tickPure m).stop,
          if m.clear then
            [OutEvent.write m.updateSink (blockOf (tickPure m)),
             OutEvent.clearBlock Sink.real]
          else [OutEvent.write m.updateSink (blockOf (tickPure m))])
      else (tickPure m, [OutEvent.write m.updateSink (blockOf (tickPure m))])) := by
  unfold Multispinner.tick
  simp only [renderList_eq_of_valid (tickFrame m) (tickFrame m).spinners hv]
  split
  · next h =>
      rw [if_pos (show ((tickPure m).allCompleted = true) from h)]
      rfl
  · next h =>
      rw [if_neg (show ¬((tickPure m).allCompleted = true) from h)]
      rfl

--------------------------------------------------------------------------
-- Helper lemmas: timers
--------------------------------------------------------------------------

lemma timerActive_stop (m : Multispinner) : timerActive m.stop = false := by
  unfold timerActive Multispinner.stop
  cases hs : m.state with
  | none => simp [hs]
  | some h => simp [hs]

lemma stop_i (m : Multispinner) : m.stop.i = m.i := by
  unfold Multispinner.stop
  cases m.state <;> rfl

lemma stop_indentStr (m : Multispinner) : m.stop.indentStr = m.indentStr := by
  unfold Multispinner.stop
  cases m.state <;> rfl

lemma stop_successColor (m : Multispinner) :
    m.stop.successColor = m.successColor := by
  unfold Multispinner.stop
  cases m.state <;> rfl

lemma stop_errorColor (m : Multispinner) : m.stop.errorColor = m.errorColor := by
  unfold Multispinner.stop
  cases m.state <;> rfl

lemma stop_successSymbol (m : Multispinner) :
    m.stop.successSymbol = m.successSymbol := by
  unfold Multispinner.stop
  cases m.state <;> rfl

lemma stop_errorSymbol (m : Multispinner) :
    m.stop.errorSymbol = m.errorSymbol := by
  unfold Multispinner.stop
  cases m.state <;> rfl

lemma stop_nextTimerId (m : Multispinner) :
    m.stop.nextTimerId = m.nextTimerId := by
  unfold Multispinner.stop
  cases m.state <;> rfl

lemma timerActive_tickPure (m : Multispinner) :
    timerActive (tickPure m) = timerActive m := rfl

lemma runTicks_no_timers (k : Nat) (m : Multispinner)
    (h : m.activeTimers = []) : runTicks k m = some (m, []) := by
  cases k <;> simp [runTicks, h]

lemma isEmpty_false_of_timerActive (m : Multispinner)
    (ht : timerActive m = true) : m.activeTimers.isEmpty = false := by
  unfold timerActive at ht
  cases hs : m.state with
  | none => rw [hs] at ht; cases ht
  | some h =>
      rw [hs] at ht
      cases hl : m.activeTimers with
      | nil => rw [hl] at ht; cases ht
      | cons a t => rfl

--------------------------------------------------------------------------
-- Helper lemmas: mapped registries
--------------------------------------------------------------------------

lemma map_fst_render (m1 : Multispinner) (l : List (String × SpinnerEntry)) :
    (l.map (fun p => (p.1, renderedEntry m1 p.2))).map Prod.fst = l.map Prod.fst := by
  induction l with
  | nil => rfl
  | cons p rest ih => simp [ih]

lemma all_state_render (m1 : Multispinner) (l : List (String × SpinnerEntry))
    (q : String → Bool) :
    ((l.map (fun p => (p.1, renderedEntry m1 p.2))).all (fun p => q p.2.state))
      = l.all (fun p => q p.2.state) := by
  induction l with
  | nil => rfl
  | cons p rest ih => simp [renderedEntry_state, ih]

lemma any_state_render (m1 : Multispinner) (l : List (String × SpinnerEntry))
    (q : String → Bool) :
    ((l.map (fun p => (p.1, renderedEntry m1 p.2))).any (fun p => q p.2.state))
      = l.any (fun p => q p.2.state) := by
  induction l with
  | nil => rfl
  | cons p rest ih => simp [renderedEntry_state, ih]

lemma allCompleted_tickPure (m : Multispinner) :
    (tickPure m).allCompleted = m.allCompleted := by
  unfold Multispinner.allCompleted
  simp only [tickPure, tickFrame]
  exact all_state_render _ m.spinners (fun st => st != states.incomplete)

lemma entriesValid_tickPure (m : Multispinner) :
    entriesValid (tickPure m) = entriesValid m := by
  unfold entriesValid validStates
  simp only [tickPure, tickFrame]
  exact all_state_render _ m.spinners (fun st => statesKeys.contains st)

lemma hasIncomplete_tickPure (m : Multispinner) :
    hasIncomplete (tickPure m) = hasIncomplete m := by
  unfold hasIncomplete
  simp only [tickPure, tickFrame]
  exact any_state_render _ m.spinners (fun st => st == states.incomplete)

lemma allCompleted_eq_false_of_hasIncomplete (m : Multispinner)
    (h : hasIncomplete m = true) : m.allCompleted = false := by
  unfold hasIncomplete at h
  unfold Multispinner.allCompleted
  rw [List.any_eq_true] at h
  obtain ⟨p, hp, hq⟩ := h
  rw [List.all_eq_false]
  exact ⟨p, hp, by simp_all⟩

lemma lookupSpinner_map_render (m1 : Multispinner)
    (l : List (String × SpinnerEntry)) (name : String) :
    lookupSpinner (l.map (fun p => (p.1, renderedEntry m1 p.2))) name
      = (lookupSpinner l name).map (renderedEntry m1) := by
  induction l with
  | nil => rfl
  | cons p rest ih =>
      by_cases hp : p.1 == name <;> simp [lookupSpinner, hp, ih]

--------------------------------------------------------------------------
-- Helper lemmas: registry mutation and lookup
--------------------------------------------------------------------------

lemma setSpinnerState_of_lookup (l : List (String × SpinnerEntry))
    (name st : String) (e : SpinnerEntry)
    (h : lookupSpinner l name = some e) :
    ∃ l2, setSpinnerState l name st = some l2 ∧
      lookupSpinner l2 name = some { e with state := st } ∧
      l2.map Prod.fst = l.map Prod.fst ∧
      (validStates l = true → statesKeys.contains st = true →
        validStates l2 = true) := by
  induction l with
  | nil => simp [lookupSpinner] at h
  | cons p rest ih =>
      by_cases hp : p.1 == name
      · have he : p.2 = e := by
          simp [lookupSpinner, hp] at h
          exact h
        refine ⟨(p.1, { p.2 with state := st }) :: rest, ?_, ?_, ?_, ?_⟩
        · simp [setSpinnerState, hp]
        · simp [lookupSpinner, hp, he]
        · simp
        · intro hv hst
          simp only [validStates, List.all_cons, Bool.and_eq_true] at hv ⊢
          exact ⟨hst, hv.2⟩
      · have h2 : lookupSpinner rest name = some e := by
          simpa [lookupSpinner, hp] using h
        obtain ⟨l2, hs, hl, hk, hvs⟩ := ih h2
        refine ⟨p :: l2, ?_, ?_, ?_, ?_⟩
        · simp [setSpinnerState, hp, hs]
        · simp [lookupSpinner, hp, hl]
        · simp [hk]
        · intro hv hst
          simp only [validStates, List.all_cons, Bool.and_eq_true] at hv ⊢
          exact ⟨hv.1, hvs hv.2 hst⟩

lemma complete_eq (m : Multispinner) (name st : String)
    (sps : List (String × SpinnerEntry))
    (hb : statesHasOwnProperty st = true)
    (hset : setSpinnerState m.spinners name st = some sps) :
    m.complete name st
      = Except.ok (Multispinner.start { m.stop with spinners := sps }) := by
  unfold Multispinner.complete
  simp only [hb, Bool.not_true, Bool.false_eq_true, if_false]
  rw [stop_spinners, hset]

lemma complete_error_invalidState_iff (m : Multispinner) (name st : String) :
    m.complete name st = Except.error CompleteError.invalidState ↔
      statesHasOwnProperty st = false := by
  unfold Multispinner.complete
  by_cases hb : statesHasOwnProperty st
  · simp only [hb, Bool.not_true, Bool.false_eq_true, if_false]
    cases hset : setSpinnerState m.stop.spinners name st with
    | none => simp [hb]
    | some sps => simp [hb]
  · simp [hb]

lemma renderedEntry_success (m1 : Multispinner) (e : SpinnerEntry) :
    renderedEntry m1 { e with state := states.success }
      = { e with
          state := states.success
          current := (chalk m1.successColor
            (m1.indentStr ++ m1.successSymbol ++ " " ++ e.text)) } := by
  simp [renderedEntry, states.success, states.incomplete]

lemma renderedEntry_error (m1 : Multispinner) (e : SpinnerEntry) :
    renderedEntry m1 { e with state := states.error }
      = { e with
          state := states.error
          current := (chalk m1.errorColor
            (m1.indentStr ++ m1.errorSymbol ++ " " ++ e.text)) } := by
  simp [renderedEntry, states.error, states.incomplete, states.success]

lemma renderedEntry_incomplete (m1 : Multispinner) (e : SpinnerEntry)
    (h : e.state = states.incomplete) :
    renderedEntry m1 e
      = { e with current := (chalk m1.incompleteColor
            (m1.indentStr ++ m1.currentFrame ++ " " ++ e.text)) } := by
  simp [renderedEntry, h, states.incomplete]

lemma tick_spinners (m : Multispinner) (hv : entriesValid m = true) :
    ∃ m2 evs, m.tick = some (m2, evs) ∧
      m2.spinners
        = m.spinners.map (fun p => (p.1, renderedEntry (tickFrame m) p.2)) ∧
      evs.head? = some (OutEvent.write m.updateSink (blockOf (tickPure m))) := by
  rw [tick_of_valid m hv]
  by_cases hc : (tickPure m).allCompleted
  · refine ⟨(tickPure m).stop, _, by rw [if_pos hc], ?_, ?_⟩
    · rw [stop_spinners]
      rfl
    · cases hcl : m.clear <;> simp [hcl]
  · refine ⟨tickPure m, _, by rw [if_neg hc], ?_, ?_⟩
    · rfl
    · simp

lemma tick_lookup (m : Multispinner) (hv : entriesValid m = true)
    (name : String) (e : SpinnerEntry)
    (hl : lookupSpinner m.spinners name = some e) :
    ∃ m2 evs, m.tick = some (m2, evs) ∧
      lookupSpinner m2.spinners name = some (renderedEntry (tickFrame m) e) := by
  obtain ⟨m2, evs, ht, hsp, _⟩ := tick_spinners m hv
  refine ⟨m2, evs, ht, ?_⟩
  rw [hsp, lookupSpinner_map_render, hl]
  rfl

--------------------------------------------------------------------------
-- C1
--------------------------------------------------------------------------

/-- C1, counterexample: the claim fails on direct restarts.  With the
loop of exM already running (timer handle 0 armed), calling start() again
arms interval timer 1 while timer 0 stays armed: two concurrent timers
exist, so the existing timer is not torn down when the loop is restarted
through start(). -/
theorem start_twice_two_timers_cex :
    timerActive (Multispinner.start exM) = true ∧
    (Multispinner.start (Multispinner.start exM)).activeTimers = [0, 1] := by
  constructor
  · rfl
  · rfl

/-- C1, amended: a restart that goes through a completion call does tear
down the timer recorded in this.state before arming the new one (stop
precedes start inside complete), so completion-driven restarts never
leave two timers; but a direct start() call arms a fresh timer and leaves
every previously armed timer untouched. -/
theorem complete_teardown_before_rearm (m : Multispinner) (h : Nat)
    (name st : String) (m2 : Multispinner)
    (hh : m.state = some h)
    (hc : m.complete name st = Except.ok m2) :
    h ∉ m.stop.activeTimers ∧
    m2.activeTimers = m.activeTimers.filter (fun x => x != h) ++ [m.nextTimerId] ∧
    (Multispinner.start m).activeTimers = m.activeTimers ++ [m.nextTimerId] := by
  refine ⟨?_, ?_, rfl⟩
  · unfold Multispinner.stop
    rw [hh]
    intro hmem
    simp at hmem
  · unfold Multispinner.complete at hc
    by_cases hb : statesHasOwnProperty st
    · simp only [hb, Bool.not_true, Bool.false_eq_true, if_false] at hc
      cases hset : setSpinnerState m.stop.spinners name st with
      | none => rw [hset] at hc; exact absurd hc (by simp)
      | some sps =>
          rw [hset] at hc
          have h2 : m2 = Multispinner.start { m.stop with spinners := sps } := by
            exact (Except.ok.injEq _ _).mp hc.symm
          rw [h2]
          show m.stop.activeTimers ++ [m.stop.nextTimerId] = _
          rw [stop_nextTimerId]
          unfold Multispinner.stop
          rw [hh]
    · simp [hb] at hc

/-- C1, witness for the amended theorem at the concrete completed
instance exMDone (timer 0 armed, this.state = 0). -/
theorem complete_teardown_before_rearm_witness :
    ∃ m2, exMDone.complete "a" states.error = Except.ok m2 ∧
      m2.activeTimers
        = exMDone.activeTimers.filter (fun x => x != 0) ++ [exMDone.nextTimerId] := by
  refine ⟨_, rfl, ?_⟩
  exact (complete_teardown_before_rearm exMDone 0 "a" states.error _ rfl rfl).2.1

--------------------------------------------------------------------------
-- C2
--------------------------------------------------------------------------

/-- C2, counterexample: complete called with the state value Incomplete
does not raise, although Incomplete is outside the set containing
Success and Error - the guard accepts every member of the state enum,
not only the two terminal ones. -/
theorem complete_incomplete_accepted_cex :
    exceptOk (exM.complete "a" states.incomplete) = true ∧
    states.incomplete ≠ states.success ∧
    states.incomplete ≠ states.error := by
  refine ⟨rfl, ?_, ?_⟩ <;> decide

/-- C2, amended: for every spinner name and every state value, complete
raises its invalid-state error if and only if the state value lies
outside the full state enum, i.e. outside the set containing Incomplete,
Success and Error; every enum member (including Incomplete) passes the
guard. -/
theorem complete_invalidState_iff_not_enum (m : Multispinner)
    (name st : String) :
    m.complete name st = Except.error CompleteError.invalidState ↔
      statesHasOwnProperty st = false :=
  complete_error_invalidState_iff m name st

lemma lookupSpinner_mem (l : List (String × SpinnerEntry)) (name : String)
    (e : SpinnerEntry) (h : lookupSpinner l name = some e) :
    ∃ p, p ∈ l ∧ p.2 = e := by
  induction l with
  | nil => simp [lookupSpinner] at h
  | cons p rest ih =>
      by_cases hp : p.1 == name
      · refine ⟨p, List.mem_cons_self _ _, ?_⟩
        simp [lookupSpinner, hp] at h
        exact h
      · have h2 : lookupSpinner rest name = some e := by
          simpa [lookupSpinner, hp] using h
        obtain ⟨q, hq, he⟩ := ih h2
        exact ⟨q, List.mem_cons_of_mem _ hq, he⟩

lemma lookupSpinner_valid (l : List (String × SpinnerEntry)) (name : String)
    (e : SpinnerEntry) (hv : validStates l = true)
    (h : lookupSpinner l name = some e) :
    e.state ∈ statesKeys := by
  obtain ⟨p, hp, he⟩ := lookupSpinner_mem l name e h
  unfold validStates at hv
  rw [List.all_eq_true] at hv
  have := hv p hp
  rw [he] at this
  simpa using this

lemma setSpinnerState_keys (l l2 : List (String × SpinnerEntry))
    (name st : String) (h : setSpinnerState l name st = some l2) :
    l2.map Prod.fst = l.map Prod.fst := by
  induction l generalizing l2 with
  | nil => simp [setSpinnerState] at h
  | cons p rest ih =>
      by_cases hp : p.1 == name
      · simp only [setSpinnerState, hp, if_true] at h
        cases h
        simp
      · simp only [setSpinnerState, hp, Bool.false_eq_true, if_false] at h
        cases hs : setSpinnerState rest name st with
        | none => rw [hs] at h; cases h
        | some rest2 =>
            rw [hs] at h
            cases h
            simp [ih rest2 hs]

--------------------------------------------------------------------------
-- C3
--------------------------------------------------------------------------

/-- C3, counterexample: on the first tick of exM the rendered line is the
whole of indent + glyph + " " + label wrapped inside the color escapes,
which differs from the claimed form indent + colored(glyph + " " + label)
with the indent outside the colored segment. -/
theorem render_indent_inside_color_cex :
    (exM.tick).map (fun p => p.1.spinners.map (fun q => q.2.current))
      = some [chalk exM.incompleteColor (exM.indentStr ++ "\\" ++ " " ++ "A")] ∧
    chalk exM.incompleteColor (exM.indentStr ++ "\\" ++ " " ++ "A")
      ≠ exM.indentStr ++ chalk exM.incompleteColor ("\\" ++ " " ++ "A") := by
  refine ⟨rfl, by decide⟩

/-- C3, amended: on every tick, every entry's computed display line is
colored(indent + glyph + " " + label) - the indent lies inside the
colored segment - where the glyph is the freshly advanced frame for
Incomplete entries and the configured terminal symbol otherwise, the
color is the configured color for the state, and the lines are joined
with the platform separator in registry insertion order; completion
calls also preserve that order. -/
theorem tick_render_spec (m : Multispinner) (hv : entriesValid m = true) :
    ∃ m2 evs, m.tick = some (m2, evs) ∧
      m2.spinners.map Prod.fst = m.spinners.map Prod.fst ∧
      evs.head? = some (OutEvent.write m.updateSink
        (String.intercalate osEOL (m2.spinners.map (fun p => p.2.current)))) ∧
      (∀ name e, lookupSpinner m.spinners name = some e →
        lookupSpinner m2.spinners name = some { e with current :=
          (if e.state == states.success then
            chalk m.successColor (m.indentStr ++ m.successSymbol ++ " " ++ e.text)
          else if e.state == states.error then
            chalk m.errorColor (m.indentStr ++ m.errorSymbol ++ " " ++ e.text)
          else
            chalk m.incompleteColor
              (m.indentStr ++ m.frames.getD ((m.i + 1) % m.frameCount) "undefined"
                ++ " " ++ e.text)) }) ∧
      (∀ name st mc, m.complete name st = Except.ok mc →
        mc.spinners.map Prod.fst = m.spinners.map Prod.fst) := by
  obtain ⟨m2, evs, ht, hsp, hhead⟩ := tick_spinners m hv
  refine ⟨m2, evs, ht, ?_, ?_, ?_, ?_⟩
  · rw [hsp]
    exact map_fst_render _ _
  · rw [hsp]
    exact hhead
  · intro name e hl
    rw [hsp, lookupSpinner_map_render, hl]
    have hval : e.state ∈ statesKeys := lookupSpinner_valid m.spinners name e hv hl
    have h3 : e.state = states.incomplete ∨ e.state = states.success ∨
        e.state = states.error := by simpa [statesKeys] using hval
    rcases h3 with h3 | h3 | h3 <;>
      simp [renderedEntry, tickFrame, h3, states.incomplete, states.success,
        states.error]
  · intro name st mc hok
    unfold Multispinner.complete at hok
    by_cases hb : statesHasOwnProperty st
    · simp only [hb, Bool.not_true, Bool.false_eq_true, if_false] at hok
      cases hset : setSpinnerState m.stop.spinners name st with
      | none => rw [hset] at hok; cases hok
      | some sps =>
          rw [hset] at hok
          have h2 : mc = Multispinner.start { m.stop with spinners := sps } :=
            (Except.ok.injEq _ _).mp hok.symm
          rw [h2]
          show sps.map Prod.fst = m.spinners.map Prod.fst
          rw [setSpinnerState_keys m.stop.spinners sps name st hset, stop_spinners]
    · simp [hb] at hok

/-- C3, witness for the amended theorem at exM. -/
theorem tick_render_spec_witness :
    ∃ m2 evs, exM.tick = some (m2, evs) ∧
      m2.spinners.map Prod.fst = exM.spinners.map Prod.fst ∧
      evs.head? = some (OutEvent.write exM.updateSink
        (String.intercalate osEOL (m2.spinners.map (fun p => p.2.current)))) := by
  obtain ⟨m2, evs, h1, h2, h3, _, _⟩ := tick_render_spec exM rfl
  exact ⟨m2, evs, h1, h2, h3⟩

--------------------------------------------------------------------------
-- C5
--------------------------------------------------------------------------

/-- C5: for a name present in the registry, success(name) (resp.
error(name)) is exactly stop-then-mutate-then-start: the result equals
start applied to the stopped instance with the one entry's state
reassigned; the instance the mutation is applied to has no armed timer
(no tick can interleave with the mutation); and on the very next tick of
the restarted loop the entry is rendered with the configured terminal
color and symbol. -/
theorem success_error_stop_mutate_restart (m : Multispinner) (name : String)
    (e : SpinnerEntry) (hl : lookupSpinner m.spinners name = some e)
    (hv : entriesValid m = true) :
    timerActive m.stop = false ∧
    (∃ sps, setSpinnerState m.spinners name states.success = some sps ∧
      m.success name
        = Except.ok (Multispinner.start { m.stop with spinners := sps }) ∧
      lookupSpinner sps name = some { e with state := states.success } ∧
      (∃ m2 evs,
        (Multispinner.start { m.stop with spinners := sps }).tick
          = some (m2, evs) ∧
        lookupSpinner m2.spinners name = some { e with
          state := states.success
          current := (chalk m.successColor
            (m.indentStr ++ m.successSymbol ++ " " ++ e.text)) })) ∧
    (∃ sps, setSpinnerState m.spinners name states.error = some sps ∧
      m.error name
        = Except.ok (Multispinner.start { m.stop with spinners := sps }) ∧
      lookupSpinner sps name = some { e with state := states.error } ∧
      (∃ m2 evs,
        (Multispinner.start { m.stop with spinners := sps }).tick
          = some (m2, evs) ∧
        lookupSpinner m2.spinners name = some { e with
          state := states.error
          current := (chalk m.errorColor
            (m.indentStr ++ m.errorSymbol ++ " " ++ e.text)) })) := by
  refine ⟨timerActive_stop m, ?_, ?_⟩
  · obtain ⟨sps, hs, hlk, hk, hvs⟩ :=
      setSpinnerState_of_lookup m.spinners name states.success e hl
    have hvalid : validStates sps = true := hvs hv (by decide)
    refine ⟨sps, hs, complete_eq m name states.success sps (by decide) hs,
      hlk, ?_⟩
    set m3 := Multispinner.start { m.stop with spinners := sps } with hm3
    have hv3 : entriesValid m3 = true := hvalid
    have hl3 : lookupSpinner m3.spinners name
        = some { e with state := states.success } := hlk
    obtain ⟨m2, evs, ht2, hlook⟩ :=
      tick_lookup m3 hv3 name { e with state := states.success } hl3
    refine ⟨m2, evs, ht2, ?_⟩
    rw [hlook, renderedEntry_success]
    have hc1 : (tickFrame m3).successColor = m.successColor := by
      show m.stop.successColor = m.successColor
      exact stop_successColor m
    have hc2 : (tickFrame m3).successSymbol = m.successSymbol := by
      show m.stop.successSymbol = m.successSymbol
      exact stop_successSymbol m
    have hc3 : (tickFrame m3).indentStr = m.indentStr := by
      show m.stop.indentStr = m.indentStr
      exact stop_indentStr m
    rw [hc1, hc2, hc3]
  · obtain ⟨sps, hs, hlk, hk, hvs⟩ :=
      setSpinnerState_of_lookup m.spinners name states.error e hl
    have hvalid : validStates sps = true := hvs hv (by decide)
    refine ⟨sps, hs, complete_eq m name states.error sps (by decide) hs,
      hlk, ?_⟩
    set m3 := Multispinner.start { m.stop with spinners := sps } with hm3
    have hv3 : entriesValid m3 = true := hvalid
    have hl3 : lookupSpinner m3.spinners name
        = some { e with state := states.error } := hlk
    obtain ⟨m2, evs, ht2, hlook⟩ :=
      tick_lookup m3 hv3 name { e with state := states.error } hl3
    refine ⟨m2, evs, ht2, ?_⟩
    rw [hlook, renderedEntry_error]
    have hc1 : (tickFrame m3).errorColor = m.errorColor := by
      show m.stop.errorColor = m.errorColor
      exact stop_errorColor m
    have hc2 : (tickFrame m3).errorSymbol = m.errorSymbol := by
      show m.stop.errorSymbol = m.errorSymbol
      exact stop_errorSymbol m
    have hc3 : (tickFrame m3).indentStr = m.indentStr := by
      show m.stop.indentStr = m.indentStr
      exact stop_indentStr m
    rw [hc1, hc2, hc3]

/-- C5, witness at exM: the stopped instance has no armed timer and
success("a") is exactly the stop-mutate-start pipeline. -/
theorem success_error_stop_mutate_restart_witness :
    timerActive exM.stop = false ∧
    (∃ sps, setSpinnerState exM.spinners "a" states.success = some sps ∧
      exM.success "a"
        = Except.ok (Multispinner.start { exM.stop with spinners := sps })) := by
  obtain ⟨h1, ⟨sps, hs1, hs2, _, _⟩, _⟩ :=
    success_error_stop_mutate_restart exM "a"
      { text := "A", state := states.incomplete, current := "" } rfl rfl
  exact ⟨h1, sps, hs1, hs2⟩

--------------------------------------------------------------------------
-- C6
--------------------------------------------------------------------------

/-- C6: completion calls are last-write-wins and never raise on a
terminal entry: success(name) then error(name) leaves the entry's state
Error, and a further success(name) on the now-terminal entry succeeds
again and reassigns the state to Success. -/
theorem complete_last_write_wins (m : Multispinner) (name : String)
    (e : SpinnerEntry) (hl : lookupSpinner m.spinners name = some e) :
    ∃ m1 m2 m3,
      m.success name = Except.ok m1 ∧
      m1.error name = Except.ok m2 ∧
      lookupSpinner m2.spinners name = some { e with state := states.error } ∧
      m2.success name = Except.ok m3 ∧
      lookupSpinner m3.spinners name = some { e with state := states.success } := by
  obtain ⟨sps1, hs1, hlk1, _, _⟩ :=
    setSpinnerState_of_lookup m.spinners name states.success e hl
  set m1 := Multispinner.start { m.stop with spinners := sps1 } with hm1
  have hok1 : m.success name = Except.ok m1 :=
    complete_eq m name states.success sps1 (by decide) hs1
  have hl1 : lookupSpinner m1.spinners name
      = some { e with state := states.success } := hlk1
  obtain ⟨sps2, hs2, hlk2, _, _⟩ :=
    setSpinnerState_of_lookup m1.spinners name states.error
      { e with state := states.success } hl1
  set m2 := Multispinner.start { m1.stop with spinners := sps2 } with hm2
  have hok2 : m1.error name = Except.ok m2 :=
    complete_eq m1 name states.error sps2 (by decide) hs2
  have hl2 : lookupSpinner m2.spinners name
      = some { e with state := states.error } := hlk2
  obtain ⟨sps3, hs3, hlk3, _, _⟩ :=
    setSpinnerState_of_lookup m2.spinners name states.success
      { e with state := states.error } hl2
  set m3 := Multispinner.start { m2.stop with spinners := sps3 } with hm3
  have hok3 : m2.success name = Except.ok m3 :=
    complete_eq m2 name states.success sps3 (by decide) hs3
  have hl3 : lookupSpinner m3.spinners name
      = some { e with state := states.success } := hlk3
  exact ⟨m1, m2, m3, hok1, hok2, hl2, hok3, hl3⟩

/-- C6, witness at exM: success("a") then error("a") then success("a")
all succeed, with the intermediate state Error. -/
theorem complete_last_write_wins_witness :
    ∃ m1 m2 m3,
      exM.success "a" = Except.ok m1 ∧
      m1.error "a" = Except.ok m2 ∧
      lookupSpinner m2.spinners "a"
        = some { text := "A", state := states.error, current := "" } ∧
      m2.success "a" = Except.ok m3 ∧
      lookupSpinner m3.spinners "a"
        = some { text := "A", state := states.success, current := "" } :=
  complete_last_write_wins exM "a"
    { text := "A", state := states.incomplete, current := "" } rfl

--------------------------------------------------------------------------
-- C7
--------------------------------------------------------------------------

/-- C7, counterexample: at the reachable state obtained by constructing
with clearOnComplete, calling start() twice and then success("a"), every
entry is terminal but two intervals are armed (the loop's recorded one
plus the stray one the double start leaked).  The first subsequent
callback execution stops only the recorded timer, so the stray interval
keeps firing: two executions after completion produce two block writes
and two clear() calls, refuting stops-on-first-tick, no-further-redraw,
clear-exactly-once and no-further-writes. -/
theorem stray_timer_redraws_cex :
    (((Multispinner.start (Multispinner.start exMClear)).success "a").toOption.map
        (fun m => (m.allCompleted, m.activeTimers.length))) = some (true, 2) ∧
    ((((Multispinner.start (Multispinner.start exMClear)).success "a").toOption.bind
        (runTicks 2)).map (fun p => (countWrites p.2, countClears p.2)))
      = some (2, 2) := by
  exact ⟨rfl, rfl⟩

/-- C7, amended: once every entry's state is non-Incomplete, then
provided the loop's recorded timer is the only armed interval (the
single-timer regime the completion calls maintain; a direct double
start() violates it), the loop stops itself on the first subsequent
callback execution: that final tick redraws once, advances the frame
index exactly once no matter how many further periods elapse, tears the
only timer down (leaving no armed interval, so nothing ever fires
again), invokes the real redraw collaborator's clear() exactly once if
clearOnComplete is set, and never invokes it otherwise. -/
theorem loop_self_stop_spec (m : Multispinner) (k : Nat) (h : Nat)
    (hstate : m.state = some h) (htimers : m.activeTimers = [h])
    (hall : m.allCompleted = true) (hv : entriesValid m = true) :
    ∃ m2 evs, runTicks (k + 1) m = some (m2, evs) ∧
      m2.activeTimers = [] ∧
      timerActive m2 = false ∧
      m2.i = (m.i + 1) % m.frameCount ∧
      countWrites evs = 1 ∧
      countClears evs = (if m.clear then 1 else 0) := by
  have hallp : (tickPure m).allCompleted = true := by
    rw [allCompleted_tickPure]
    exact hall
  have htick := tick_of_valid m hv
  rw [if_pos hallp] at htick
  have hstopt : ((tickPure m).stop).activeTimers = [] := by
    unfold Multispinner.stop
    have hs2 : (tickPure m).state = some h := hstate
    rw [hs2]
    have ht2 : (tickPure m).activeTimers = [h] := htimers
    simp only [ht2]
    simp
  have hstop : timerActive (tickPure m).stop = false := timerActive_stop _
  have hrest : runTicks k (tickPure m).stop = some ((tickPure m).stop, []) :=
    runTicks_no_timers k _ hstopt
  have hne : ¬(m.activeTimers.isEmpty = true) := by
    rw [htimers]
    simp
  refine ⟨(tickPure m).stop,
    (if m.clear then
      [OutEvent.write m.updateSink (blockOf (tickPure m)),
       OutEvent.clearBlock Sink.real]
    else [OutEvent.write m.updateSink (blockOf (tickPure m))]),
    ?_, hstopt, hstop, ?_, ?_, ?_⟩
  · unfold runTicks
    rw [if_neg hne]
    simp only [htick, hrest, List.append_nil]
  · rw [stop_i]
    rfl
  · cases hcl : m.clear <;> simp [hcl, countWrites]
  · cases hcl : m.clear <;> simp [hcl, countClears]

/-- C7, witness for the amended theorem at the completed instance
exMDone, whose only armed interval is the recorded timer 0, with two
extra idle periods after the final tick. -/
theorem loop_self_stop_spec_witness :
    ∃ m2 evs, runTicks 3 exMDone = some (m2, evs) ∧
      m2.activeTimers = [] ∧
      timerActive m2 = false ∧
      m2.i = (exMDone.i + 1) % exMDone.frameCount ∧
      countWrites evs = 1 ∧
      countClears evs = (if exMDone.clear then 1 else 0) :=
  loop_self_stop_spec exMDone 2 0 rfl rfl rfl rfl

--------------------------------------------------------------------------
-- C4
--------------------------------------------------------------------------

lemma stop_updateSink (m : Multispinner) :
    m.stop.updateSink = m.updateSink := by
  unfold Multispinner.stop
  cases m.state <;> rfl

lemma tick_events_of_valid (m : Multispinner) (hv : entriesValid m = true)
    (m1 : Multispinner) (evs1 : List OutEvent)
    (h : m.tick = some (m1, evs1)) :
    writesOnlyTo evs1 m.updateSink = true ∧ clearsAllReal evs1 = true ∧
      m1.updateSink = m.updateSink ∧ entriesValid m1 = true := by
  have hvp : entriesValid (tickPure m) = true := by
    rw [entriesValid_tickPure]
    exact hv
  rw [tick_of_valid m hv] at h
  by_cases hc : (tickPure m).allCompleted
  · rw [if_pos hc] at h
    by_cases hcl : m.clear
    · rw [if_pos hcl] at h
      cases h
      refine ⟨by simp [writesOnlyTo], by simp [clearsAllReal], ?_, ?_⟩
      · rw [stop_updateSink]
        rfl
      · show validStates (tickPure m).stop.spinners = true
        rw [stop_spinners]
        exact hvp
    · rw [if_neg hcl] at h
      cases h
      refine ⟨by simp [writesOnlyTo], by simp [clearsAllReal], ?_, ?_⟩
      · rw [stop_updateSink]
        rfl
      · show validStates (tickPure m).stop.spinners = true
        rw [stop_spinners]
        exact hvp
  · rw [if_neg hc] at h
    cases h
    exact ⟨by simp [writesOnlyTo], by simp [clearsAllReal], rfl, hvp⟩

lemma foldl_updateSink {α : Type} (f : Multispinner → α → Multispinner)
    (hf : ∀ m a, (f m a).updateSink = m.updateSink) :
    ∀ (l : List α) (m : Multispinner), (l.foldl f m).updateSink = m.updateSink := by
  intro l
  induction l with
  | nil => intro m; rfl
  | cons x rest ih =>
      intro m
      show ((rest.foldl f (f m x)).updateSink) = m.updateSink
      rw [ih (f m x), hf]

lemma parseSpinners_updateSink (v : JSValue) (m : Multispinner) :
    (parseSpinners m v).updateSink = m.updateSink := by
  cases v with
  | array xs =>
      show (xs.foldl (fun acc v => createSpinner acc (jsLabel v) none) m).updateSink
        = m.updateSink
      exact foldl_updateSink (fun acc v => createSpinner acc (jsLabel v) none)
        (fun m a => rfl) xs m
  | object fs =>
      show (fs.foldl (fun acc p => createSpinner acc p.1 (some (jsLabel p.2))) m).updateSink
        = m.updateSink
      exact foldl_updateSink (fun acc p => createSpinner acc p.1 (some (jsLabel p.2)))
        (fun m a => rfl) fs m
  | null => rfl
  | undefined => rfl
  | boolean b => rfl
  | number n => rfl
  | string s => rfl
  | function => rfl

lemma runTicks_sinks (k : Nat) :
    ∀ (m : Multispinner), entriesValid m = true →
      ∀ (m2 : Multispinner) (evs : List OutEvent),
        runTicks k m = some (m2, evs) →
        writesOnlyTo evs m.updateSink = true ∧ clearsAllReal evs = true := by
  induction k with
  | zero =>
      intro m hv m2 evs h
      unfold runTicks at h
      cases h
      exact ⟨rfl, rfl⟩
  | succ k ih =>
      intro m hv m2 evs h
      unfold runTicks at h
      by_cases he : m.activeTimers.isEmpty = true
      · rw [if_pos he] at h
        cases h
        exact ⟨rfl, rfl⟩
      · rw [if_neg he] at h
        cases htick : m.tick with
        | none => rw [htick] at h; cases h
        | some p =>
            obtain ⟨m1, evs1⟩ := p
            rw [htick] at h
            simp only [] at h
            obtain ⟨hw1, hc1, hu1, hv1⟩ := tick_events_of_valid m hv m1 evs1 htick
            cases hrest : runTicks k m1 with
            | none => rw [hrest] at h; cases h
            | some q =>
                obtain ⟨m3, evs2⟩ := q
                rw [hrest] at h
                simp only [] at h
                cases h
                obtain ⟨hw2, hc2⟩ := ih m1 hv1 _ _ hrest
                constructor
                · unfold writesOnlyTo at hw1 hw2 ⊢
                  rw [List.all_append, hw1, ← hu1, hw2]
                  rfl
                · unfold clearsAllReal at hc1 hc2 ⊢
                  rw [List.all_append, hc1, hc2]
                  rfl


/-- C4, counterexample: an instance constructed with the debug flag (and
clearOnComplete) set still issues its clear-on-completion call on the
redraw collaborator bound to the real terminal stream: after completing
its one spinner, the next tick's event list contains a clear call whose
target is the real stream, because the code calls logUpdate.clear()
rather than this.update.clear(). -/
theorem debug_clear_reaches_real_cex :
    cfgDebugClear.debug = true ∧
    (((construct spObjA JSValue.undefined cfgDebugClear).toOption.bind
        (fun m => (m.success "a").toOption)).bind Multispinner.tick).map
      (fun p => clearsToReal p.2) = some true := by
  exact ⟨rfl, rfl⟩

/-- C4, amended: for an instance constructed with the debug flag set,
every block write produced over any run of the loop goes to the
discarded no-op sink, so tick output never reaches the real terminal
stream; but every clear call produced by the loop targets the real
stream's redraw collaborator (the global log-update instance), not the
no-op sink. -/
theorem debug_sink_spec (spinners opts : JSValue) (cfg : Config)
    (m0 m m2 : Multispinner) (k : Nat) (evs : List OutEvent)
    (hdbg : cfg.debug = true)
    (hc : construct spinners opts cfg = Except.ok m0)
    (hsink : m.updateSink = m0.updateSink)
    (hv : entriesValid m = true)
    (hrun : runTicks k m = some (m2, evs)) :
    writesOnlyTo evs Sink.debugNoop = true ∧ clearsAllReal evs = true := by
  have hm0 : m0.updateSink = Sink.debugNoop := by
    unfold construct at hc
    by_cases h1 : (kindOf spinners != "object" && kindOf spinners != "array") = true
    · rw [if_pos h1] at hc
      cases hc
    · rw [if_neg h1] at hc
      by_cases h2 : (truthy opts && kindOf opts != "object") = true
      · rw [if_pos h2] at hc
        cases hc
      · rw [if_neg h2] at hc
        cases hc
        rw [parseSpinners_updateSink]
        show (if cfg.debug then Sink.debugNoop else Sink.real) = Sink.debugNoop
        rw [hdbg]
        rfl
  obtain ⟨hw, hcl⟩ := runTicks_sinks k m hv m2 evs hrun
  rw [hsink, hm0] at hw
  exact ⟨hw, hcl⟩

/-- C4, witness: one tick of the armed, completed debug instance writes
only to the no-op sink and clears only on the real stream. -/
theorem debug_sink_spec_witness :
    ∃ p, runTicks 1 exMDebugDone = some p ∧
      writesOnlyTo p.2 Sink.debugNoop = true ∧ clearsAllReal p.2 = true := by
  refine ⟨_, rfl, ?_⟩
  exact debug_sink_spec spObjA JSValue.undefined cfgDebugClear exMDebug
    exMDebugDone _ 1 _ rfl rfl rfl rfl rfl

--------------------------------------------------------------------------
-- C8
--------------------------------------------------------------------------

/-- C8, counterexample: the empty string is a supplied options argument
that is not a key-value mapping, yet construction succeeds - the guard
only fires on truthy non-mapping options, so falsy values such as the
empty string are silently skipped. -/
theorem construct_falsy_opts_cex :
    exceptOk (construct spObjA (JSValue.string "") defaultConfig) = true ∧
    kindOf (JSValue.string "") ≠ "object" := by
  exact ⟨rfl, by decide⟩

/-- C8, amended: construction fails (with a ConfigurationError, before
any registry state is built) if and only if the spinners argument is
neither a mapping nor a sequence, or the options argument is truthy and
not a mapping; falsy supplied options values (empty string, 0, false,
null) are treated as absent, and every other input constructs
successfully. -/
theorem construct_error_iff (spinners opts : JSValue) (cfg : Config) :
    exceptOk (construct spinners opts cfg) = false ↔
      ((kindOf spinners ≠ "object" ∧ kindOf spinners ≠ "array") ∨
        (truthy opts = true ∧ kindOf opts ≠ "object")) := by
  unfold construct
  by_cases h1 : (kindOf spinners != "object" && kindOf spinners != "array") = true
  · rw [if_pos h1]
    simp only [exceptOk]
    simp only [Bool.and_eq_true, bne_iff_ne] at h1
    simp [h1]
  · rw [if_neg h1]
    by_cases h2 : (truthy opts && kindOf opts != "object") = true
    · rw [if_pos h2]
      simp only [exceptOk]
      simp only [Bool.and_eq_true, bne_iff_ne] at h2
      simp [h2]
    · rw [if_neg h2]
      simp only [exceptOk]
      simp only [Bool.and_eq_true, bne_iff_ne, not_and_or] at h1 h2
      constructor
      · intro h
        cases h
      · intro h
        rcases h with ⟨ha, hb⟩ | ⟨ha, hb⟩
        · rcases h1 with h1 | h1
          · exact absurd ha h1
          · exact absurd hb h1
        · rcases h2 with h2 | h2
          · rw [ha] at h2
            simp at h2
          · exact absurd hb h2

--------------------------------------------------------------------------
-- C10
--------------------------------------------------------------------------

/-- C10: constructing from an empty mapping or an empty sequence
succeeds, allCompleted() is vacuously true immediately, and once started
the loop tears its timer down on the very first tick. -/
theorem empty_registry_spec :
    ∃ mo, construct (JSValue.object []) JSValue.undefined defaultConfig
        = Except.ok mo ∧
      mo.allCompleted = true ∧
      (∃ q, (Multispinner.start mo).tick = some q ∧ timerActive q.1 = false) ∧
      ∃ ma, construct (JSValue.array []) JSValue.undefined defaultConfig
          = Except.ok ma ∧
        ma.allCompleted = true ∧
        ∃ q, (Multispinner.start ma).tick = some q ∧ timerActive q.1 = false := by
  refine ⟨_, rfl, rfl, ⟨_, rfl, rfl⟩, _, rfl, rfl, _, rfl, rfl⟩

--------------------------------------------------------------------------
-- C9 support: iterating the pure tick
--------------------------------------------------------------------------

lemma iter_tickPure_fields (k : Nat) (m : Multispinner) :
    (tickPure^[k] m).frames = m.frames ∧
    (tickPure^[k] m).frameCount = m.frameCount ∧
    (tickPure^[k] m).incompleteColor = m.incompleteColor ∧
    (tickPure^[k] m).indentStr = m.indentStr := by
  induction k with
  | zero => exact ⟨rfl, rfl, rfl, rfl⟩
  | succ k ih =>
      rw [Function.iterate_succ_apply']
      obtain ⟨h1, h2, h3, h4⟩ := ih
      exact ⟨h1, h2, h3, h4⟩

lemma iter_tickPure_i (k : Nat) (m : Multispinner)
    (hlt : m.i < m.frameCount) :
    (tickPure^[k] m).i = (m.i + k) % m.frameCount := by
  induction k with
  | zero =>
      simp [Nat.mod_eq_of_lt hlt]
  | succ k ih =>
      rw [Function.iterate_succ_apply']
      have hstep : (tickPure (tickPure^[k] m)).i
          = ((tickPure^[k] m).i + 1) % (tickPure^[k] m).frameCount := rfl
      rw [hstep, (iter_tickPure_fields k m).2.1, ih, Nat.mod_add_mod,
        Nat.add_assoc]

lemma runTicks_iter (k : Nat) :
    ∀ (m : Multispinner), entriesValid m = true → hasIncomplete m = true →
      timerActive m = true →
      ∃ evs, runTicks k m = some (tickPure^[k] m, evs) := by
  induction k with
  | zero =>
      intro m _ _ _
      exact ⟨[], by simp [runTicks]⟩
  | succ k ih =>
      intro m hv hi ht
      have hall : (tickPure m).allCompleted = false := by
        rw [allCompleted_tickPure]
        exact allCompleted_eq_false_of_hasIncomplete m hi
      have htick := tick_of_valid m hv
      rw [if_neg (by rw [hall]; simp : ¬((tickPure m).allCompleted = true))] at htick
      have hv1 : entriesValid (tickPure m) = true := by
        rw [entriesValid_tickPure]; exact hv
      have hi1 : hasIncomplete (tickPure m) = true := by
        rw [hasIncomplete_tickPure]; exact hi
      have ht1 : timerActive (tickPure m) = true := ht
      obtain ⟨evs, hrest⟩ := ih (tickPure m) hv1 hi1 ht1
      have hne : ¬(m.activeTimers.isEmpty = true) := by
        rw [isEmpty_false_of_timerActive m ht]
        simp
      refine ⟨[OutEvent.write m.updateSink (blockOf (tickPure m))] ++ evs, ?_⟩
      unfold runTicks
      rw [if_neg hne]
      simp only [htick, hrest]
      rw [Function.iterate_succ_apply]

--------------------------------------------------------------------------
-- C9
--------------------------------------------------------------------------

/-- C9: the frame cursor advances by exactly one position modulo the
frame count on every tick, and is shared: over a run with no completions
(some entry still Incomplete so the loop never stops), after frameCount
ticks the cursor is back at 0 and every Incomplete entry's displayed
glyph is again the first frame of the sequence. -/
theorem frame_cycle_spec (m : Multispinner)
    (hv : entriesValid m = true) (hi : hasIncomplete m = true)
    (ht : timerActive m = true) (h0 : m.i = 0)
    (hfc : m.frameCount = m.frames.length) (hpos : 0 < m.frameCount) :
    (∀ m1 evs, m.tick = some (m1, evs) → m1.i = (m.i + 1) % m.frameCount) ∧
    ∃ m2 evs, runTicks m.frameCount m = some (m2, evs) ∧
      m2.i = 0 ∧
      m2.currentFrame = m.frames.getD 0 "undefined" ∧
      ∀ p ∈ m2.spinners, p.2.state = states.incomplete →
        p.2.current = chalk m.incompleteColor
          (m.indentStr ++ m.frames.getD 0 "undefined" ++ " " ++ p.2.text) := by
  have hlt : m.i < m.frameCount := by
    rw [h0]
    exact hpos
  obtain ⟨n, hn⟩ := Nat.exists_eq_succ_of_ne_zero (Nat.pos_iff_ne_zero.mp hpos)
  have hpf := iter_tickPure_fields n m
  have hpi : (tickPure^[n] m).i = n := by
    rw [iter_tickPure_i n m hlt, h0, Nat.zero_add,
      Nat.mod_eq_of_lt (by rw [hn]; exact Nat.lt_succ_self n)]
  constructor
  · intro m1 evs h
    rw [tick_of_valid m hv] at h
    by_cases hc : (tickPure m).allCompleted
    · rw [if_pos hc] at h
      cases h
      rw [stop_i]
      rfl
    · rw [if_neg hc] at h
      cases h
      rfl
  · obtain ⟨evs, hrun⟩ := runTicks_iter m.frameCount m hv hi ht
    refine ⟨tickPure^[m.frameCount] m, evs, hrun, ?_, ?_, ?_⟩
    · rw [iter_tickPure_i _ _ hlt, h0, Nat.zero_add, Nat.mod_self]
    · rw [hn, Function.iterate_succ_apply']
      have hcf : (tickPure (tickPure^[n] m)).currentFrame
          = (tickPure^[n] m).frames.getD
              (((tickPure^[n] m).i + 1) % (tickPure^[n] m).frameCount)
              "undefined" := rfl
      rw [hcf, hpf.1, hpf.2.1, hpi, hn, Nat.mod_self]
    · intro p hp hstate
      rw [hn, Function.iterate_succ_apply'] at hp
      have hp2 : p ∈ (tickFrame (tickPure^[n] m)).spinners.map
          (fun q => (q.1, renderedEntry (tickFrame (tickPure^[n] m)) q.2)) := hp
      rw [List.mem_map] at hp2
      obtain ⟨q, hq, hpq⟩ := hp2
      subst hpq
      have hqs : q.2.state = states.incomplete := hstate
      show (renderedEntry (tickFrame (tickPure^[n] m)) q.2).current
        = chalk m.incompleteColor
            (m.indentStr ++ m.frames.getD 0 "undefined" ++ " " ++ q.2.text)
      rw [renderedEntry_incomplete (tickFrame (tickPure^[n] m)) q.2 hqs]
      have e1 : (tickFrame (tickPure^[n] m)).incompleteColor
          = m.incompleteColor := hpf.2.2.1
      have e2 : (tickFrame (tickPure^[n] m)).indentStr = m.indentStr :=
        hpf.2.2.2
      have e3 : (tickFrame (tickPure^[n] m)).currentFrame
          = m.frames.getD 0 "undefined" := by
        show (tickPure^[n] m).frames.getD
            (((tickPure^[n] m).i + 1) % (tickPure^[n] m).frameCount)
            "undefined" = _
        rw [hpf.1, hpf.2.1, hpi, hn, Nat.mod_self]
      show chalk (tickFrame (tickPure^[n] m)).incompleteColor
          ((tickFrame (tickPure^[n] m)).indentStr
            ++ (tickFrame (tickPure^[n] m)).currentFrame ++ " " ++ q.2.text) = _
      rw [e1, e2, e3]

/-- C9, witness: starting exM (frame count 4) and running 4 ticks brings
the cursor back to 0 and the glyph back to the first frame. -/
theorem frame_cycle_spec_witness :
    ∃ m2 evs,
      runTicks (Multispinner.start exM).frameCount (Multispinner.start exM)
        = some (m2, evs) ∧
      m2.i = 0 ∧
      m2.currentFrame = (Multispinner.start exM).frames.getD 0 "undefined" := by
  obtain ⟨_, m2, evs, h1, h2, h3, _⟩ :=
    frame_cycle_spec (Multispinner.start exM) rfl rfl rfl rfl rfl (by decide)
  exact ⟨m2, evs, h1, h2, h3⟩
